import Mathlib

/-!
Verification of the in-memory device/fault registry with its statistics
cache from the `c-plane` gateway (`internal/context/context.go`,
`internal/models/device.go`, `internal/sbi/producer/fault.go`).

Shallow embedding conventions:
* Go `map[string]V` becomes an association list `List (String × V)`;
  assignment `m[k] = v` is `mapSet`, `delete(m, k)` is `mapDel`, and the
  two-valued read `v, ok := m[k]` is `mapGet : … → Option V`.
* `time.Time` becomes `Nat` (seconds).  The Go zero `time.Time{}` is
  modelled as `0`; with a realistic clock (`60 ≤ now`) a zero timestamp
  always fails the 60-second freshness check, exactly as in Go where
  `time.Since(time.Time{})` vastly exceeds one minute.
* Pointer mutation through a `*Device` / `*Fault` held in the map becomes
  re-insertion of the updated record under the same key.
* The `Context` methods become state-passing functions; methods that call
  `time.Now()` take an explicit `now : Nat` argument.
* `Device.DeviceInfo` and `Device.Parameters` hold untyped `interface{}`
  data that no registry/cache/filter operation ever reads or writes; they
  are elided from the embedded `Device`.
-/

namespace CPlane

/-- Embeds `models.DeviceID` (internal/models/device.go). -/
structure DeviceID where
  manufacturer : String
  oui : String
  productClass : String
  serialNumber : String
  deviceIDString : String
  hardwareVersion : String
  softwareVersion : String
  modelName : String
  provisioningCode : String
  manufacturerOUI : String
  externalIPAddress : String
  ipAddress : String
deriving DecidableEq, Repr, Inhabited

/-- Embeds `models.ConnectionRequest`. -/
structure ConnectionRequest where
  url : String
  username : String
  password : String
deriving DecidableEq, Repr, Inhabited

/-- Embeds `models.DeviceStatus`. -/
structure DeviceStatus where
  online : Bool
  lastSeen : Nat
  connectionStatus : String
  errorCount : Int
deriving DecidableEq, Repr, Inhabited

/-- Embeds `models.Device`.  `DeviceInfo` and `Parameters` (untyped `interface{}`
payloads, never touched by the registry) are elided. -/
structure Device where
  id : String
  deviceID : DeviceID
  lastInform : Nat
  lastBoot : Nat
  lastBootstrap : Nat
  lastRegistered : Nat
  root : String
  tags : List (String × Bool)
  connectionRequest : ConnectionRequest
  status : DeviceStatus
deriving DecidableEq, Repr, Inhabited

/-- Embeds `models.Fault`. -/
structure Fault where
  id : String
  deviceID : String
  deviceSerial : String
  deviceModel : String
  channel : String
  code : String
  message : String
  detail : String
  severity : String
  timestamp : Nat
  expiry : Option Nat
  retries : Int
  status : String
  acknowledgedBy : String
  acknowledgedAt : Option Nat
  resolvedBy : String
  resolvedAt : Option Nat
  tags : List String
deriving DecidableEq, Repr, Inhabited

/-- Embeds `models.FaultStatusActive`. -/
def FaultStatusActive : String := "active"

/-- Embeds `models.FaultStatusAcknowledged`. -/
def FaultStatusAcknowledged : String := "acknowledged"

/-- Embeds `models.FaultStatusResolved`. -/
def FaultStatusResolved : String := "resolved"

/-- Embeds `models.FaultStatusExpired`. -/
def FaultStatusExpired : String := "expired"

/-- Embeds `models.SeverityCritical`. -/
def SeverityCritical : String := "critical"

/-- Embeds `models.DeviceStats`; the Go `map[string]int` histograms become
association lists. -/
structure DeviceStats where
  totalDevices : Nat
  onlineDevices : Nat
  offlineDevices : Nat
  devicesByVendor : List (String × Nat)
  devicesByModel : List (String × Nat)
  activeFaults : Nat
  criticalFaults : Nat
deriving DecidableEq, Repr, Inhabited

/-- Embeds `models.IPRange`. -/
structure IPRange where
  startIP : String
  endIP : String
deriving DecidableEq, Repr, Inhabited

/-- Embeds `models.DeviceFilter`.  `Pagination` is consumed by the HTTP layer,
not by `matchesFilter`, and is elided; `search` is carried but — exactly
as in the source — never consulted by `matchesFilter`. -/
structure DeviceFilter where
  ipRange : Option IPRange
  manufacturer : String
  modelName : String
  productClass : String
  tags : List String
  online : Option Bool
  search : String
deriving DecidableEq, Repr, Inhabited

/-- Embeds `models.ErrFaultNotFound` (the only `models` error the registry
returns). -/
inductive RegistryErr where
  | faultNotFound
deriving DecidableEq, Repr

/-- The registry state: the fields of `context.Context` that the device,
fault and statistics operations touch.  The mutexes are concurrency
plumbing with no sequential meaning, and the GenieACS status and config
fields are not used by any operation modelled here. -/
structure Context where
  devices : List (String × Device)
  faults : List (String × Fault)
  statsCache : DeviceStats
  statsCacheTime : Nat
deriving DecidableEq, Repr, Inhabited

/-! ### Go map operations on association lists -/

/-- Go two-valued map read `v, ok := m[k]`. -/
def mapGet {α : Type} (m : List (String × α)) (k : String) : Option α :=
  match m with
  | [] => none
  | (k', v') :: rest => if k' = k then some v' else mapGet rest k

/-- Go map assignment `m[k] = v`: replaces in place, or appends. -/
def mapSet {α : Type} (m : List (String × α)) (k : String) (v : α) :
    List (String × α) :=
  match m with
  | [] => [(k, v)]
  | (k', v') :: rest =>
    if k' = k then (k, v) :: rest else (k', v') :: mapSet rest k v

/-- Go `delete(m, k)`. -/
def mapDel {α : Type} (m : List (String × α)) (k : String) :
    List (String × α) :=
  match m with
  | [] => []
  | (k', v') :: rest => if k' = k then mapDel rest k else (k', v') :: mapDel rest k

/-- The values of a map, in iteration order. -/
def mapValues {α : Type} (m : List (String × α)) : List α :=
  m.map Prod.snd

/-- Go boolean-map read `device.Tags[tag]`: missing keys read as `false`. -/
def tagLookup (tags : List (String × Bool)) (t : String) : Bool :=
  (mapGet tags t).getD false

/-! ### Registry Store operations (`internal/context/context.go`) -/

/-- Embeds `Context.invalidateStatsCache`: sets the cache timestamp to the Go
zero time, modelled as `0`. -/
def invalidateStatsCache (c : Context) : Context :=
  { c with statsCacheTime := 0 }

/-- Embeds `Context.AddDevice` (spec: `upsertDevice`): `c.devices[device.ID] =
device`, then invalidate the stats cache. -/
def AddDevice (c : Context) (device : Device) : Context :=
  invalidateStatsCache { c with devices := mapSet c.devices device.id device }

/-- Embeds `Context.GetDevice` (spec: `getDevice`): the two-valued map read. -/
def GetDevice (c : Context) (deviceID : String) : Option Device :=
  mapGet c.devices deviceID

/-- Embeds `Context.RemoveDevice` (spec: `removeDevice`). -/
def RemoveDevice (c : Context) (deviceID : String) : Context :=
  invalidateStatsCache { c with devices := mapDel c.devices deviceID }

/-- Embeds `Context.UpdateDeviceStatus` (spec: `setDeviceOnline`): mutates the
status fields of the stored device in place when it exists — re-insertion
under the same key in the embedding — and invalidates the cache; silently
no-ops when the device is absent. -/
def UpdateDeviceStatus (c : Context) (deviceID : String) (online : Bool)
    (now : Nat) : Context :=
  match mapGet c.devices deviceID with
  | none => c
  | some device =>
    let device' :=
      { device with
        status :=
          { device.status with
            online := online
            lastSeen := now
            connectionStatus := if online then "connected" else "disconnected" } }
    invalidateStatsCache { c with devices := mapSet c.devices deviceID device' }

/-- Embeds `Context.AddFault` (spec: `upsertFault`). -/
def AddFault (c : Context) (fault : Fault) : Context :=
  invalidateStatsCache { c with faults := mapSet c.faults fault.id fault }

/-- Embeds `Context.GetFault` (spec: `getFault`). -/
def GetFault (c : Context) (faultID : String) : Option Fault :=
  mapGet c.faults faultID

/-- Embeds `Context.AcknowledgeFault` (spec: `acknowledgeFault`): NotFound when
absent; otherwise sets status/actor/timestamp unconditionally — the source
performs no check of the fault's prior status — and invalidates the
cache. -/
def AcknowledgeFault (c : Context) (faultID acknowledgedBy : String)
    (now : Nat) : Option RegistryErr × Context :=
  match mapGet c.faults faultID with
  | none => (some RegistryErr.faultNotFound, c)
  | some fault =>
    let fault' :=
      { fault with
        status := FaultStatusAcknowledged
        acknowledgedBy := acknowledgedBy
        acknowledgedAt := some now }
    (none, invalidateStatsCache { c with faults := mapSet c.faults faultID fault' })

/-- Embeds `Context.ResolveFault` (spec: `resolveFault`): NotFound when absent;
otherwise sets status/actor/timestamp unconditionally and invalidates the
cache. -/
def ResolveFault (c : Context) (faultID resolvedBy : String)
    (now : Nat) : Option RegistryErr × Context :=
  match mapGet c.faults faultID with
  | none => (some RegistryErr.faultNotFound, c)
  | some fault =>
    let fault' :=
      { fault with
        status := FaultStatusResolved
        resolvedBy := resolvedBy
        resolvedAt := some now }
    (none, invalidateStatsCache { c with faults := mapSet c.faults faultID fault' })

/-! ### Stats Cache (`updateStatsCache`, `GetDeviceStats`) -/

/-- One `stats.DevicesByVendor[vendor]++` step on an association-list
histogram: increments in place, or appends the key with count 1 (the Go
map read of a missing key yields 0, then stores 1). -/
def bump (m : List (String × Nat)) (k : String) : List (String × Nat) :=
  match m with
  | [] => [(k, 1)]
  | (k', v) :: rest =>
    if k' = k then (k', v + 1) :: rest else (k', v) :: bump rest k

/-- Histogram read: Go map read of a missing key yields `0`. -/
def histGet (m : List (String × Nat)) (k : String) : Nat :=
  (mapGet m k).getD 0

/-- Sum of all counts in a histogram. -/
def sumValues (m : List (String × Nat)) : Nat :=
  (m.map Prod.snd).sum

/-- The vendor bucket of a device: empty manufacturer strings go to the
literal bucket `"Unknown"`. -/
def vendorKey (d : Device) : String :=
  if d.deviceID.manufacturer = "" then "Unknown" else d.deviceID.manufacturer

/-- The model bucket of a device: empty model names go to `"Unknown"`. -/
def modelKey (d : Device) : String :=
  if d.deviceID.modelName = "" then "Unknown" else d.deviceID.modelName

/-- The body of the device loop of `updateStatsCache`. -/
def countDevice (s : DeviceStats) (d : Device) : DeviceStats :=
  let s1 :=
    if d.status.online then { s with onlineDevices := s.onlineDevices + 1 }
    else { s with offlineDevices := s.offlineDevices + 1 }
  let s2 := { s1 with devicesByVendor := bump s1.devicesByVendor (vendorKey d) }
  { s2 with devicesByModel := bump s2.devicesByModel (modelKey d) }

/-- The active-fault test of the fault loop of `updateStatsCache` (also
the membership test of `GetActiveFaults`). -/
def isActiveFault (f : Fault) : Bool :=
  f.status == FaultStatusActive || f.status == FaultStatusAcknowledged

/-- The body of the fault loop of `updateStatsCache`. -/
def countFault (s : DeviceStats) (f : Fault) : DeviceStats :=
  if isActiveFault f then
    let s1 := { s with activeFaults := s.activeFaults + 1 }
    if f.severity == SeverityCritical then
      { s1 with criticalFaults := s1.criticalFaults + 1 }
    else s1
  else s

/-- The snapshot built by `updateStatsCache` from the device and fault
sets: `TotalDevices` is set up front from `len(c.devices)`, then one pass
over the devices and one over the faults. -/
def computeStats (devices : List Device) (faults : List Fault) : DeviceStats :=
  let init : DeviceStats :=
    { totalDevices := devices.length
      onlineDevices := 0
      offlineDevices := 0
      devicesByVendor := []
      devicesByModel := []
      activeFaults := 0
      criticalFaults := 0 }
  faults.foldl countFault (devices.foldl countDevice init)

/-- Embeds `Context.updateStatsCache`: recomputes the snapshot and stamps it with
the current time. -/
def updateStatsCache (c : Context) (now : Nat) : Context :=
  { c with
    statsCache := computeStats (mapValues c.devices) (mapValues c.faults)
    statsCacheTime := now }

/-- Embeds `Context.GetDeviceStats` (spec: `getStats`): serves the cached
snapshot while `time.Since(statsCacheTime) < time.Minute`, otherwise
recomputes.  Returns the snapshot together with the post-call state. -/
def GetDeviceStats (c : Context) (now : Nat) : DeviceStats × Context :=
  if now - c.statsCacheTime < 60 then (c.statsCache, c)
  else
    let c' := updateStatsCache c now
    (c'.statsCache, c')

/-! ### Filter Engine (`matchesFilter`, `isIPInRange`) -/

/-- Embeds `isIPInRange`: the source is an explicit placeholder that always
returns `true` (unimplemented IP-range matching). -/
def isIPInRange (_ip _startIP _endIP : String) : Bool :=
  true

/-- The IP-range guard of `matchesFilter` (`if filter.IPRange != nil`,
falling through to `true` when no range is given). -/
def checkIPRange (device : Device) (r : Option IPRange) : Bool :=
  match r with
  | some range => isIPInRange device.deviceID.ipAddress range.startIP range.endIP
  | none => true

/-- The online guard of `matchesFilter` (`if filter.Online != nil`,
falling through to `true` when no flag is given). -/
def checkOnline (device : Device) (o : Option Bool) : Bool :=
  match o with
  | some b => device.status.online == b
  | none => true

/-- Embeds `matchesFilter`: the Go guard sequence (each failed criterion
returns `false`, falling through returns `true`) written as a
conjunction. -/
def matchesFilter (device : Device) (filter : Option DeviceFilter) : Bool :=
  match filter with
  | none => true
  | some f =>
    checkIPRange device f.ipRange
    && (f.manufacturer == "" || device.deviceID.manufacturer == f.manufacturer)
    && (f.modelName == "" || device.deviceID.modelName == f.modelName)
    && (f.productClass == "" || device.deviceID.productClass == f.productClass)
    && checkOnline device f.online
    && f.tags.all (tagLookup device.tags)

/-- Embeds `Context.GetFilteredDevices` (spec: `listDevicesFiltered`). -/
def GetFilteredDevices (c : Context) (filter : Option DeviceFilter) :
    List Device :=
  (mapValues c.devices).filter (fun d => matchesFilter d filter)

/-! ### HTTP fault handlers (`internal/sbi/producer/fault.go`)

The handlers are `gin` closures; stripped of HTTP/JSON plumbing and of the
outbound GenieACS calls (which do not touch the registry state on these
paths), their registry-visible logic is the guard sequence below. -/

/-- Outcome of a producer fault action, standing for the HTTP response
class the handler emits. -/
inductive FaultActionResult where
  | ok
  | notFound
  | alreadyAcknowledged
  | alreadyResolved
  | internalError
deriving DecidableEq, Repr

/-- Embeds `producer.AcknowledgeFault`: 404 when the fault is absent, 400 when it
is already acknowledged or already resolved, otherwise delegates to
`Context.AcknowledgeFault`. -/
def producerAcknowledgeFault (c : Context) (faultID acknowledgedBy : String)
    (now : Nat) : FaultActionResult × Context :=
  match GetFault c faultID with
  | none => (FaultActionResult.notFound, c)
  | some fault =>
    if fault.status = FaultStatusAcknowledged then
      (FaultActionResult.alreadyAcknowledged, c)
    else if fault.status = FaultStatusResolved then
      (FaultActionResult.alreadyResolved, c)
    else
      match AcknowledgeFault c faultID acknowledgedBy now with
      | (some _, c') => (FaultActionResult.internalError, c')
      | (none, c') => (FaultActionResult.ok, c')

/-- Embeds `producer.ResolveFault`: 404 when the fault is absent, 400 when it is
already resolved, otherwise delegates to `Context.ResolveFault`. -/
def producerResolveFault (c : Context) (faultID resolvedBy : String)
    (now : Nat) : FaultActionResult × Context :=
  match GetFault c faultID with
  | none => (FaultActionResult.notFound, c)
  | some fault =>
    if fault.status = FaultStatusResolved then
      (FaultActionResult.alreadyResolved, c)
    else
      match ResolveFault c faultID resolvedBy now with
      | (some _, c') => (FaultActionResult.internalError, c')
      | (none, c') => (FaultActionResult.ok, c')

/-! ### Concrete fixtures

Small concrete states used by witnesses, counterexamples and the spec's
worked scenario. -/

/-- The freshly created registry of `GetContext`: empty maps, an empty
stats snapshot, zero cache timestamp. -/
def emptyContext : Context :=
  { devices := [], faults := [], statsCache := default, statsCacheTime := 0 }

/-- Scenario device 1: online, vendor `"Acme"`, model `"X1"`. -/
def scenarioDevice1 : Device :=
  { (default : Device) with
    id := "dev-1"
    deviceID := { (default : DeviceID) with manufacturer := "Acme", modelName := "X1" }
    status := { (default : DeviceStatus) with online := true } }

/-- Scenario device 2: online, vendor `"Acme"`, model `"X2"`. -/
def scenarioDevice2 : Device :=
  { (default : Device) with
    id := "dev-2"
    deviceID := { (default : DeviceID) with manufacturer := "Acme", modelName := "X2" }
    status := { (default : DeviceStatus) with online := true } }

/-- Scenario device 3: offline, empty vendor and model strings. -/
def scenarioDevice3 : Device :=
  { (default : Device) with
    id := "dev-3"
    status := { (default : DeviceStatus) with online := false } }

/-- Scenario fault 1: critical and active. -/
def scenarioFault1 : Fault :=
  { (default : Fault) with id := "flt-1", severity := "critical", status := "active" }

/-- Scenario fault 2: minor and resolved. -/
def scenarioFault2 : Fault :=
  { (default : Fault) with id := "flt-2", severity := "minor", status := "resolved" }

/-- The spec's worked scenario: 3 devices (2 online, 1 offline) and
2 faults (1 critical/active, 1 minor/resolved), inserted through the
registry operations. -/
def scenarioContext : Context :=
  AddFault
    (AddFault
      (AddDevice (AddDevice (AddDevice emptyContext scenarioDevice1) scenarioDevice2)
        scenarioDevice3)
      scenarioFault1)
    scenarioFault2

/-- A device with identifier `"d1"` and one tag, used by witnesses. -/
def witnessDevice : Device :=
  { (default : Device) with
    id := "d1"
    deviceID := { (default : DeviceID) with manufacturer := "Acme", serialNumber := "SN1" }
    tags := [("x", true)] }

/-- A registry holding just `witnessDevice`. -/
def witnessContext : Context :=
  AddDevice emptyContext witnessDevice

/-- An active fault with identifier `"f1"`, used by witnesses. -/
def witnessFault : Fault :=
  { (default : Fault) with id := "f1", severity := "major", status := "active" }

/-- A registry holding just `witnessFault`. -/
def witnessFaultContext : Context :=
  AddFault emptyContext witnessFault

/-- An already-acknowledged fault (acknowledged by `"alice"`). -/
def ackedFault : Fault :=
  { (default : Fault) with
    id := "f1"
    status := "acknowledged"
    acknowledgedBy := "alice"
    acknowledgedAt := some 50 }

/-- A registry holding just `ackedFault`. -/
def ackedContext : Context :=
  AddFault emptyContext ackedFault

/-- An already-resolved fault (resolved by `"alice"`). -/
def resolvedFault : Fault :=
  { (default : Fault) with
    id := "f2"
    status := "resolved"
    resolvedBy := "alice"
    resolvedAt := some 50 }

/-- A registry holding just `resolvedFault`. -/
def resolvedContext : Context :=
  AddFault emptyContext resolvedFault

/-- A device whose identifier is the empty string (and which carries a
tag, so that storing it is observable). -/
def emptyIDDevice : Device :=
  { (default : Device) with id := "", tags := [("x", true)] }

/-- A registry whose cache was recomputed at time `100`: empty maps, a
coherent snapshot, cache timestamp `100`. -/
def staleEdgeContext : Context :=
  { devices := [], faults := [], statsCache := computeStats [] [], statsCacheTime := 100 }

/-! ### Association-list map lemmas -/

theorem mapGet_mapSet_self {α : Type} (m : List (String × α)) (k : String) (v : α) :
    mapGet (mapSet m k v) k = some v := by
  induction m with
  | nil => simp [mapSet, mapGet]
  | cons p rest ih =>
    obtain ⟨k', v'⟩ := p
    by_cases h : k' = k
    · simp [mapSet, mapGet, h]
    · simp [mapSet, mapGet, h, ih]

theorem mapGet_mapSet_ne {α : Type} (m : List (String × α)) (k k2 : String) (v : α)
    (h : k2 ≠ k) : mapGet (mapSet m k v) k2 = mapGet m k2 := by
  have hkk : ¬ k = k2 := fun h' => h h'.symm
  induction m with
  | nil => simp [mapSet, mapGet, hkk]
  | cons p rest ih =>
    obtain ⟨k', v'⟩ := p
    by_cases hk : k' = k
    · subst hk
      simp [mapSet, mapGet, hkk]
    · by_cases hk2 : k' = k2
      · simp [mapSet, mapGet, hk, hk2, h]
      · simp [mapSet, mapGet, hk, hk2, ih]

/-! ### Histogram lemmas -/

theorem sumValues_bump (m : List (String × Nat)) (k : String) :
    sumValues (bump m k) = sumValues m + 1 := by
  induction m with
  | nil => simp [bump, sumValues]
  | cons p rest ih =>
    obtain ⟨k', v⟩ := p
    by_cases h : k' = k
    · simp [bump, sumValues, h]
      omega
    · simp only [bump, sumValues, if_neg h, List.map_cons, List.sum_cons]
      have := ih
      simp only [sumValues] at this
      omega

theorem histGet_bump_self (m : List (String × Nat)) (k : String) :
    histGet (bump m k) k = histGet m k + 1 := by
  induction m with
  | nil => simp [bump, histGet, mapGet]
  | cons p rest ih =>
    obtain ⟨k', v⟩ := p
    simp only [histGet] at ih ⊢
    by_cases h : k' = k
    · simp [bump, mapGet, h]
    · simp [bump, mapGet, h, ih]

theorem histGet_bump_ne (m : List (String × Nat)) (k k2 : String) (h : k2 ≠ k) :
    histGet (bump m k) k2 = histGet m k2 := by
  have hkk : ¬ k = k2 := fun h' => h h'.symm
  induction m with
  | nil => simp [bump, histGet, mapGet, hkk]
  | cons p rest ih =>
    obtain ⟨k', v⟩ := p
    simp only [histGet] at ih ⊢
    by_cases hk : k' = k
    · subst hk
      simp [bump, mapGet, hkk]
    · by_cases hk2 : k' = k2
      · simp [bump, mapGet, hk, hk2, h]
      · simp [bump, mapGet, hk, hk2, ih]

/-! ### Single-step lemmas for the stats loops -/

theorem countDevice_totalDevices (s : DeviceStats) (d : Device) :
    (countDevice s d).totalDevices = s.totalDevices := by
  by_cases h : d.status.online <;> simp [countDevice, h]

theorem countDevice_activeFaults (s : DeviceStats) (d : Device) :
    (countDevice s d).activeFaults = s.activeFaults := by
  by_cases h : d.status.online <;> simp [countDevice, h]

theorem countDevice_criticalFaults (s : DeviceStats) (d : Device) :
    (countDevice s d).criticalFaults = s.criticalFaults := by
  by_cases h : d.status.online <;> simp [countDevice, h]

theorem countDevice_onlineDevices (s : DeviceStats) (d : Device) :
    (countDevice s d).onlineDevices =
      s.onlineDevices + (if d.status.online then 1 else 0) := by
  by_cases h : d.status.online <;> simp [countDevice, h]

theorem countDevice_offlineDevices (s : DeviceStats) (d : Device) :
    (countDevice s d).offlineDevices =
      s.offlineDevices + (if d.status.online then 0 else 1) := by
  by_cases h : d.status.online <;> simp [countDevice, h]

theorem countDevice_devicesByVendor (s : DeviceStats) (d : Device) :
    (countDevice s d).devicesByVendor = bump s.devicesByVendor (vendorKey d) := by
  by_cases h : d.status.online <;> simp [countDevice, h]

theorem countDevice_devicesByModel (s : DeviceStats) (d : Device) :
    (countDevice s d).devicesByModel = bump s.devicesByModel (modelKey d) := by
  by_cases h : d.status.online <;> simp [countDevice, h]

theorem countFault_deviceFields (s : DeviceStats) (f : Fault) :
    (countFault s f).totalDevices = s.totalDevices ∧
    (countFault s f).onlineDevices = s.onlineDevices ∧
    (countFault s f).offlineDevices = s.offlineDevices ∧
    (countFault s f).devicesByVendor = s.devicesByVendor ∧
    (countFault s f).devicesByModel = s.devicesByModel := by
  by_cases h1 : isActiveFault f <;>
    by_cases h2 : f.severity == SeverityCritical <;>
      simp [countFault, h1, h2]

theorem countFault_activeFaults (s : DeviceStats) (f : Fault) :
    (countFault s f).activeFaults =
      s.activeFaults + (if isActiveFault f then 1 else 0) := by
  by_cases h1 : isActiveFault f <;>
    by_cases h2 : f.severity == SeverityCritical <;>
      simp [countFault, h1, h2]

theorem countFault_criticalFaults (s : DeviceStats) (f : Fault) :
    (countFault s f).criticalFaults =
      s.criticalFaults +
        (if isActiveFault f && f.severity == SeverityCritical then 1 else 0) := by
  by_cases h1 : isActiveFault f <;>
    by_cases h2 : f.severity == SeverityCritical <;>
      simp [countFault, h1, h2]

/-! ### Loop (foldl) lemmas for the stats computation -/

theorem foldl_countDevice_totalDevices (l : List Device) (s : DeviceStats) :
    (l.foldl countDevice s).totalDevices = s.totalDevices := by
  induction l generalizing s with
  | nil => rfl
  | cons d rest ih => simp [List.foldl_cons, ih, countDevice_totalDevices]

theorem foldl_countDevice_activeFaults (l : List Device) (s : DeviceStats) :
    (l.foldl countDevice s).activeFaults = s.activeFaults := by
  induction l generalizing s with
  | nil => rfl
  | cons d rest ih => simp [List.foldl_cons, ih, countDevice_activeFaults]

theorem foldl_countDevice_criticalFaults (l : List Device) (s : DeviceStats) :
    (l.foldl countDevice s).criticalFaults = s.criticalFaults := by
  induction l generalizing s with
  | nil => rfl
  | cons d rest ih => simp [List.foldl_cons, ih, countDevice_criticalFaults]

theorem foldl_countDevice_onlineDevices (l : List Device) (s : DeviceStats) :
    (l.foldl countDevice s).onlineDevices =
      s.onlineDevices + (l.filter (fun d => d.status.online)).length := by
  induction l generalizing s with
  | nil => simp
  | cons d rest ih =>
    by_cases h : d.status.online <;>
      simp [List.foldl_cons, List.filter_cons, h, ih, countDevice_onlineDevices] <;>
        omega

theorem foldl_countDevice_offlineDevices (l : List Device) (s : DeviceStats) :
    (l.foldl countDevice s).offlineDevices =
      s.offlineDevices + (l.filter (fun d => !d.status.online)).length := by
  induction l generalizing s with
  | nil => simp
  | cons d rest ih =>
    by_cases h : d.status.online <;>
      simp [List.foldl_cons, List.filter_cons, h, ih, countDevice_offlineDevices] <;>
        omega

theorem foldl_countDevice_sumValues_vendor (l : List Device) (s : DeviceStats) :
    sumValues (l.foldl countDevice s).devicesByVendor =
      sumValues s.devicesByVendor + l.length := by
  induction l generalizing s with
  | nil => simp
  | cons d rest ih =>
    simp [List.foldl_cons, ih, countDevice_devicesByVendor, sumValues_bump]
    omega

theorem foldl_countDevice_sumValues_model (l : List Device) (s : DeviceStats) :
    sumValues (l.foldl countDevice s).devicesByModel =
      sumValues s.devicesByModel + l.length := by
  induction l generalizing s with
  | nil => simp
  | cons d rest ih =>
    simp [List.foldl_cons, ih, countDevice_devicesByModel, sumValues_bump]
    omega

theorem foldl_countDevice_histGet_vendor (l : List Device) (s : DeviceStats)
    (v : String) :
    histGet (l.foldl countDevice s).devicesByVendor v =
      histGet s.devicesByVendor v + (l.filter (fun d => vendorKey d == v)).length := by
  induction l generalizing s with
  | nil => simp
  | cons d rest ih =>
    by_cases h : vendorKey d = v
    · simp [List.foldl_cons, List.filter_cons, h, ih, countDevice_devicesByVendor,
        histGet_bump_self]
      omega
    · have hb : histGet (bump s.devicesByVendor (vendorKey d)) v =
          histGet s.devicesByVendor v :=
        histGet_bump_ne _ _ _ (fun h' => h h'.symm)
      simp [List.foldl_cons, List.filter_cons, h, ih, countDevice_devicesByVendor, hb]

theorem foldl_countDevice_histGet_model (l : List Device) (s : DeviceStats)
    (v : String) :
    histGet (l.foldl countDevice s).devicesByModel v =
      histGet s.devicesByModel v + (l.filter (fun d => modelKey d == v)).length := by
  induction l generalizing s with
  | nil => simp
  | cons d rest ih =>
    by_cases h : modelKey d = v
    · simp [List.foldl_cons, List.filter_cons, h, ih, countDevice_devicesByModel,
        histGet_bump_self]
      omega
    · have hb : histGet (bump s.devicesByModel (modelKey d)) v =
          histGet s.devicesByModel v :=
        histGet_bump_ne _ _ _ (fun h' => h h'.symm)
      simp [List.foldl_cons, List.filter_cons, h, ih, countDevice_devicesByModel, hb]

theorem foldl_countFault_deviceFields (l : List Fault) (s : DeviceStats) :
    (l.foldl countFault s).totalDevices = s.totalDevices ∧
    (l.foldl countFault s).onlineDevices = s.onlineDevices ∧
    (l.foldl countFault s).offlineDevices = s.offlineDevices ∧
    (l.foldl countFault s).devicesByVendor = s.devicesByVendor ∧
    (l.foldl countFault s).devicesByModel = s.devicesByModel := by
  induction l generalizing s with
  | nil => exact ⟨rfl, rfl, rfl, rfl, rfl⟩
  | cons f rest ih =>
    obtain ⟨h1, h2, h3, h4, h5⟩ := countFault_deviceFields s f
    obtain ⟨g1, g2, g3, g4, g5⟩ := ih (countFault s f)
    exact ⟨by simp [List.foldl_cons, g1, h1], by simp [List.foldl_cons, g2, h2],
      by simp [List.foldl_cons, g3, h3], by simp [List.foldl_cons, g4, h4],
      by simp [List.foldl_cons, g5, h5]⟩

theorem foldl_countFault_activeFaults (l : List Fault) (s : DeviceStats) :
    (l.foldl countFault s).activeFaults =
      s.activeFaults + (l.filter isActiveFault).length := by
  induction l generalizing s with
  | nil => simp
  | cons f rest ih =>
    by_cases h : isActiveFault f <;>
      simp [List.foldl_cons, List.filter_cons, h, ih, countFault_activeFaults] <;>
        omega

theorem foldl_countFault_criticalFaults (l : List Fault) (s : DeviceStats) :
    (l.foldl countFault s).criticalFaults =
      s.criticalFaults +
        (l.filter (fun f => isActiveFault f && f.severity == SeverityCritical)).length := by
  induction l generalizing s with
  | nil => simp
  | cons f rest ih =>
    by_cases h : (isActiveFault f && f.severity == SeverityCritical) = true <;>
      simp only [List.foldl_cons, List.filter_cons, h, ih, countFault_criticalFaults] <;>
        simp at h ⊢ <;> omega

/-! ### Filter Engine lemmas -/

theorem checkIPRange_true (device : Device) (r : Option IPRange) :
    checkIPRange device r = true := by
  cases r <;> simp [checkIPRange, isIPInRange]

theorem checkOnline_eq_true_iff (device : Device) (o : Option Bool) :
    checkOnline device o = true ↔ ∀ b, o = some b → device.status.online = b := by
  cases o <;> simp [checkOnline]

theorem foldl_countDevice_online_add_offline (l : List Device) (s : DeviceStats) :
    (l.foldl countDevice s).onlineDevices + (l.foldl countDevice s).offlineDevices =
      s.onlineDevices + s.offlineDevices + l.length := by
  induction l generalizing s with
  | nil => simp
  | cons d rest ih =>
    by_cases h : d.status.online <;>
      simp only [List.foldl_cons, ih, countDevice_onlineDevices,
        countDevice_offlineDevices, List.length_cons, h] <;> simp <;> omega

theorem length_filter_critical_le_active (l : List Fault) :
    (l.filter (fun f => isActiveFault f && f.severity == SeverityCritical)).length ≤
      (l.filter isActiveFault).length := by
  induction l with
  | nil => simp
  | cons f rest ih =>
    by_cases h1 : isActiveFault f <;> by_cases h2 : (f.severity == SeverityCritical) = true <;>
      simp [List.filter_cons, h1, h2] <;> omega

/-! ### Claim theorems -/

/-- C3: for every device `D` and every prior store contents (including a
device already stored under the same identifier), immediately after
`AddDevice D` (spec: `upsertDevice`), `GetDevice D.id` returns exactly
`D`: the previously stored entity is replaced entirely, with no field
merging (full record equality, so in particular a previously stored tag
set does not survive). -/
theorem upsert_then_get_returns_inserted (c : Context) (d : Device) :
    GetDevice (AddDevice c d) d.id = some d := by
  simp [GetDevice, AddDevice, invalidateStatsCache, mapGet_mapSet_self]

/-- C4: `matchesFilter` has AND semantics over exactly the specified
criteria — string equality for a non-empty manufacturer, model name and
product class; boolean equality for a non-nil online flag; every tag of a
non-empty filter tag list present on the device; a nil filter matches
every device and an empty tag list imposes no constraint; and the
IP-range criterion is absent from the right-hand side because
`isIPInRange` is the intentionally unimplemented always-`true` predicate,
so it never excludes a device. -/
theorem matchesFilter_iff_all_criteria (device : Device)
    (filter : Option DeviceFilter) :
    matchesFilter device filter = true ↔
      ∀ f, filter = some f →
        ((f.manufacturer ≠ "" → device.deviceID.manufacturer = f.manufacturer) ∧
         (f.modelName ≠ "" → device.deviceID.modelName = f.modelName) ∧
         (f.productClass ≠ "" → device.deviceID.productClass = f.productClass) ∧
         (∀ b, f.online = some b → device.status.online = b) ∧
         (∀ tag ∈ f.tags, tagLookup device.tags tag = true)) := by
  cases filter with
  | none => simp [matchesFilter]
  | some f =>
    simp only [matchesFilter, Bool.and_eq_true, checkIPRange_true,
      checkOnline_eq_true_iff, Bool.or_eq_true, beq_iff_eq, List.all_eq_true,
      Option.some.injEq, true_and]
    constructor
    · rintro ⟨⟨⟨⟨hman, hmod⟩, hpc⟩, honl⟩, htags⟩ g hg
      cases hg
      exact ⟨fun hne => hman.resolve_left hne, fun hne => hmod.resolve_left hne,
        fun hne => hpc.resolve_left hne, honl, htags⟩
    · intro h
      obtain ⟨hman, hmod, hpc, honl, htags⟩ := h f rfl
      refine ⟨⟨⟨⟨?_, ?_⟩, ?_⟩, honl⟩, htags⟩
      · by_cases hne : f.manufacturer = ""
        · exact Or.inl hne
        · exact Or.inr (hman hne)
      · by_cases hne : f.modelName = ""
        · exact Or.inl hne
        · exact Or.inr (hmod hne)
      · by_cases hne : f.productClass = ""
        · exact Or.inl hne
        · exact Or.inr (hpc hne)

/-- C6: acknowledging a fault identifier absent from the store returns
`ErrFaultNotFound` and is atomic on failure: the returned state is the
input state itself, so the fault map and the stats-cache invalidation
state (the cache timestamp) are untouched. -/
theorem acknowledge_missing_fault_notFound (c : Context) (fid actor : String)
    (now : Nat) (h : GetFault c fid = none) :
    (AcknowledgeFault c fid actor now).1 = some RegistryErr.faultNotFound ∧
    (AcknowledgeFault c fid actor now).2 = c ∧
    (AcknowledgeFault c fid actor now).2.faults = c.faults ∧
    (AcknowledgeFault c fid actor now).2.statsCacheTime = c.statsCacheTime := by
  simp only [GetFault] at h
  simp [AcknowledgeFault, h]

/-- Witness for C6: the spec's own instance, `acknowledgeFault
("missing-id", "bob")` on the empty registry. -/
theorem acknowledge_missing_fault_notFound_witness :
    (AcknowledgeFault emptyContext "missing-id" "bob" 100).1 =
        some RegistryErr.faultNotFound ∧
    (AcknowledgeFault emptyContext "missing-id" "bob" 100).2 = emptyContext ∧
    (AcknowledgeFault emptyContext "missing-id" "bob" 100).2.faults =
        emptyContext.faults ∧
    (AcknowledgeFault emptyContext "missing-id" "bob" 100).2.statsCacheTime =
        emptyContext.statsCacheTime :=
  acknowledge_missing_fault_notFound emptyContext "missing-id" "bob" 100 (by decide)

/-- C1: every mutating operation leaves the stats-cache timestamp at the
zero value as its final step (`UpdateDeviceStatus` when the device exists,
`AcknowledgeFault`/`ResolveFault` when the fault exists — the failing
calls are no-ops), and a registry whose cache timestamp is zero has its
next `GetDeviceStats` call recompute the snapshot from the current device
and fault sets, for any realistic clock (`60 ≤ t`, the Go zero `time.Time`
being far more than a minute in the past), hence even within 60 seconds
of whenever the previous snapshot was cached. -/
theorem mutations_invalidate_stats_cache (c : Context) (d : Device) (f : Fault)
    (did fid actor : String) (online : Bool) (now t : Nat) :
    (AddDevice c d).statsCacheTime = 0 ∧
    (RemoveDevice c did).statsCacheTime = 0 ∧
    (GetDevice c did ≠ none →
      (UpdateDeviceStatus c did online now).statsCacheTime = 0) ∧
    (AddFault c f).statsCacheTime = 0 ∧
    (GetFault c fid ≠ none →
      (AcknowledgeFault c fid actor now).2.statsCacheTime = 0 ∧
      (ResolveFault c fid actor now).2.statsCacheTime = 0) ∧
    (c.statsCacheTime = 0 → 60 ≤ t →
      GetDeviceStats c t =
        (computeStats (mapValues c.devices) (mapValues c.faults),
         updateStatsCache c t)) := by
  refine ⟨rfl, rfl, ?_, rfl, ?_, ?_⟩
  · intro h
    simp only [GetDevice] at h
    cases hm : mapGet c.devices did with
    | none => exact absurd hm h
    | some dev => simp [UpdateDeviceStatus, hm, invalidateStatsCache]
  · intro h
    simp only [GetFault] at h
    cases hm : mapGet c.faults fid with
    | none => exact absurd hm h
    | some flt =>
      exact ⟨by simp [AcknowledgeFault, hm, invalidateStatsCache],
        by simp [ResolveFault, hm, invalidateStatsCache]⟩
  · intro h0 ht
    rw [GetDeviceStats, h0, if_neg (by omega)]
    rfl

/-- Witness for C1: concrete invalidations and a concrete recomputation at
time 100 on a one-device registry. -/
theorem mutations_invalidate_stats_cache_witness :
    (UpdateDeviceStatus witnessContext "d1" true 100).statsCacheTime = 0 ∧
    (AcknowledgeFault witnessFaultContext "f1" "bob" 100).2.statsCacheTime = 0 ∧
    GetDeviceStats witnessContext 100 =
      (computeStats (mapValues witnessContext.devices)
        (mapValues witnessContext.faults),
       updateStatsCache witnessContext 100) := by
  refine ⟨?_, ?_, ?_⟩
  · exact (mutations_invalidate_stats_cache witnessContext default default
      "d1" "f1" "bob" true 100 100).2.2.1 (by decide)
  · exact ((mutations_invalidate_stats_cache witnessFaultContext default default
      "d1" "f1" "bob" true 100 100).2.2.2.2.1 (by decide)).1
  · exact (mutations_invalidate_stats_cache witnessContext default default
      "d1" "f1" "bob" true 100 100).2.2.2.2.2 (by decide) (by decide)

/-- C9: `UpdateDeviceStatus` on an existing device updates exactly the
status fields — online flag to the argument, last-seen to now, the
connection-status string to `"connected"`/`"disconnected"` — keeps every
other field of the device (the `with` pattern carries them over, and
`errorCount` is stated explicitly), invalidates the stats cache, and
leaves the fault map and every other device untouched; on a missing
device it is a complete silent no-op. -/
theorem setDeviceOnline_frame (c : Context) (did : String) (online : Bool)
    (now : Nat) :
    (∀ d, GetDevice c did = some d →
      GetDevice (UpdateDeviceStatus c did online now) did =
        some { d with status :=
          { online := online
            lastSeen := now
            connectionStatus := if online then "connected" else "disconnected"
            errorCount := d.status.errorCount } } ∧
      (UpdateDeviceStatus c did online now).statsCacheTime = 0 ∧
      (UpdateDeviceStatus c did online now).faults = c.faults ∧
      (∀ k, k ≠ did →
        GetDevice (UpdateDeviceStatus c did online now) k = GetDevice c k)) ∧
    (GetDevice c did = none → UpdateDeviceStatus c did online now = c) := by
  constructor
  · intro d hd
    simp only [GetDevice] at hd
    refine ⟨?_, ?_, ?_, ?_⟩
    · simp [UpdateDeviceStatus, hd, GetDevice, invalidateStatsCache,
        mapGet_mapSet_self]
    · simp [UpdateDeviceStatus, hd, invalidateStatsCache]
    · simp [UpdateDeviceStatus, hd, invalidateStatsCache]
    · intro k hk
      simp [UpdateDeviceStatus, hd, GetDevice, invalidateStatsCache,
        mapGet_mapSet_ne _ _ _ _ hk]
  · intro h
    simp only [GetDevice] at h
    simp [UpdateDeviceStatus, h]

/-- Witness for C9: setting the stored device `"d1"` online at time 100
updates its status record and leaves the rest of the store alone. -/
theorem setDeviceOnline_frame_witness :
    GetDevice (UpdateDeviceStatus witnessContext "d1" true 100) "d1" =
      some { witnessDevice with status :=
        { online := true
          lastSeen := 100
          connectionStatus := "connected"
          errorCount := witnessDevice.status.errorCount } } ∧
    GetDevice (UpdateDeviceStatus witnessContext "d1" true 100) "other" =
      GetDevice witnessContext "other" := by
  have h := (setDeviceOnline_frame witnessContext "d1" true 100).1 witnessDevice
    (by decide)
  exact ⟨h.1, h.2.2.2 "other" (by decide)⟩

/-- C10: every snapshot produced by `updateStatsCache` satisfies the
counting invariants: total = online + offline, both histograms sum to the
total, and 0 ≤ critical ≤ active. -/
theorem stats_snapshot_invariants (c : Context) (now : Nat) :
    (updateStatsCache c now).statsCache.totalDevices =
        (updateStatsCache c now).statsCache.onlineDevices +
          (updateStatsCache c now).statsCache.offlineDevices ∧
    sumValues (updateStatsCache c now).statsCache.devicesByVendor =
        (updateStatsCache c now).statsCache.totalDevices ∧
    sumValues (updateStatsCache c now).statsCache.devicesByModel =
        (updateStatsCache c now).statsCache.totalDevices ∧
    0 ≤ (updateStatsCache c now).statsCache.criticalFaults ∧
    (updateStatsCache c now).statsCache.criticalFaults ≤
        (updateStatsCache c now).statsCache.activeFaults := by
  simp only [updateStatsCache, computeStats]
  obtain ⟨hf1, hf2, hf3, hf4, hf5⟩ :=
    foldl_countFault_deviceFields (mapValues c.faults)
      ((mapValues c.devices).foldl countDevice
        { totalDevices := (mapValues c.devices).length
          onlineDevices := 0
          offlineDevices := 0
          devicesByVendor := []
          devicesByModel := []
          activeFaults := 0
          criticalFaults := 0 })
  refine ⟨?_, ?_, ?_, Nat.zero_le _, ?_⟩
  · rw [hf1, hf2, hf3, foldl_countDevice_totalDevices,
      foldl_countDevice_online_add_offline]
    simp
  · rw [hf1, hf4, foldl_countDevice_sumValues_vendor,
      foldl_countDevice_totalDevices]
    simp [sumValues]
  · rw [hf1, hf5, foldl_countDevice_sumValues_model,
      foldl_countDevice_totalDevices]
    simp [sumValues]
  · rw [foldl_countFault_activeFaults, foldl_countFault_criticalFaults,
      foldl_countDevice_activeFaults, foldl_countDevice_criticalFaults]
    simpa using length_filter_critical_le_active (mapValues c.faults)

/-- C2: the snapshot computed by `updateStatsCache` consists of exact
integer aggregates over a single pass: total = number of stored devices,
online/offline partition by the online flag, the per-vendor and per-model
histograms count devices per bucket (`vendorKey`/`modelKey` send the
empty string to the literal bucket `"Unknown"`), active faults are those
with status active or acknowledged, and critical faults are the active
ones with critical severity; and on the spec's concrete scenario
(3 devices — 2 online, 1 offline — and 2 faults — 1 critical/active,
1 minor/resolved) `GetDeviceStats` returns totalDevices = 3,
onlineDevices = 2, offlineDevices = 1, activeFaults = 1,
criticalFaults = 1. -/
theorem getStats_exact_aggregates :
    (∀ (devices : List Device) (faults : List Fault),
      (computeStats devices faults).totalDevices = devices.length ∧
      (computeStats devices faults).onlineDevices =
        (devices.filter (fun d => d.status.online)).length ∧
      (computeStats devices faults).offlineDevices =
        (devices.filter (fun d => !d.status.online)).length ∧
      (∀ v, histGet (computeStats devices faults).devicesByVendor v =
        (devices.filter (fun d => vendorKey d == v)).length) ∧
      (∀ v, histGet (computeStats devices faults).devicesByModel v =
        (devices.filter (fun d => modelKey d == v)).length) ∧
      (computeStats devices faults).activeFaults =
        (faults.filter isActiveFault).length ∧
      (computeStats devices faults).criticalFaults =
        (faults.filter
          (fun f => isActiveFault f && f.severity == SeverityCritical)).length) ∧
    ((GetDeviceStats scenarioContext 100).1.totalDevices = 3 ∧
     (GetDeviceStats scenarioContext 100).1.onlineDevices = 2 ∧
     (GetDeviceStats scenarioContext 100).1.offlineDevices = 1 ∧
     (GetDeviceStats scenarioContext 100).1.activeFaults = 1 ∧
     (GetDeviceStats scenarioContext 100).1.criticalFaults = 1) := by
  constructor
  · intro devices faults
    simp only [computeStats]
    obtain ⟨hf1, hf2, hf3, hf4, hf5⟩ :=
      foldl_countFault_deviceFields faults
        (devices.foldl countDevice
          { totalDevices := devices.length
            onlineDevices := 0
            offlineDevices := 0
            devicesByVendor := []
            devicesByModel := []
            activeFaults := 0
            criticalFaults := 0 })
    refine ⟨?_, ?_, ?_, ?_, ?_, ?_, ?_⟩
    · rw [hf1, foldl_countDevice_totalDevices]
    · rw [hf2, foldl_countDevice_onlineDevices]
      simp
    · rw [hf3, foldl_countDevice_offlineDevices]
      simp
    · intro v
      rw [hf4, foldl_countDevice_histGet_vendor]
      simp [histGet, mapGet]
    · intro v
      rw [hf5, foldl_countDevice_histGet_model]
      simp [histGet, mapGet]
    · rw [foldl_countFault_activeFaults, foldl_countDevice_activeFaults]
      simp
    · rw [foldl_countFault_criticalFaults, foldl_countDevice_criticalFaults]
      simp
  · decide

/-- Counterexample for C5: the registry-level `AcknowledgeFault` does NOT
reject an already-acknowledged fault — it returns no error and overwrites
the acknowledgement — and `ResolveFault` likewise does not reject an
already-resolved fault, contradicting the claim that these calls are
rejected with an error and leave the fault unchanged. -/
theorem fault_terminal_reject_counterexample :
    (AcknowledgeFault ackedContext "f1" "bob" 100).1 = none ∧
    GetFault (AcknowledgeFault ackedContext "f1" "bob" 100).2 "f1" ≠
      some ackedFault ∧
    (ResolveFault resolvedContext "f2" "bob" 100).1 = none ∧
    GetFault (ResolveFault resolvedContext "f2" "bob" 100).2 "f2" ≠
      some resolvedFault := by
  decide

/-- C5 (amended): the monotonic-transition rejection lives in the HTTP
fault handlers, not in the registry: for an existing fault that is
already acknowledged, the producer acknowledge handler rejects and leaves
the state unchanged (while the registry-level `AcknowledgeFault` reports
no error); for one already resolved, both producer handlers reject and
leave the state unchanged. -/
theorem fault_terminal_state_enforced_at_handler (c : Context)
    (fid actor : String) (f : Fault) (now : Nat)
    (hget : GetFault c fid = some f) :
    (f.status = FaultStatusAcknowledged →
      producerAcknowledgeFault c fid actor now =
        (FaultActionResult.alreadyAcknowledged, c) ∧
      (AcknowledgeFault c fid actor now).1 = none) ∧
    (f.status = FaultStatusResolved →
      producerAcknowledgeFault c fid actor now =
        (FaultActionResult.alreadyResolved, c) ∧
      producerResolveFault c fid actor now =
        (FaultActionResult.alreadyResolved, c)) := by
  have hack : FaultStatusAcknowledged ≠ FaultStatusResolved := by decide
  constructor
  · intro hs
    constructor
    · simp [producerAcknowledgeFault, hget, hs]
    · simp only [GetFault] at hget
      simp [AcknowledgeFault, hget]
  · intro hs
    have hras : ¬ (FaultStatusResolved = FaultStatusAcknowledged) := by decide
    exact ⟨by simp [producerAcknowledgeFault, hget, hs, hras],
      by simp [producerResolveFault, hget, hs]⟩

/-- Witness for the amended C5: concrete rejections on an acknowledged
fault and on a resolved fault. -/
theorem fault_terminal_state_enforced_at_handler_witness :
    producerAcknowledgeFault ackedContext "f1" "bob" 100 =
      (FaultActionResult.alreadyAcknowledged, ackedContext) ∧
    producerResolveFault resolvedContext "f2" "bob" 100 =
      (FaultActionResult.alreadyResolved, resolvedContext) := by
  refine ⟨?_, ?_⟩
  · exact ((fault_terminal_state_enforced_at_handler ackedContext "f1" "bob"
      ackedFault 100 (by decide)).1 (by decide)).1
  · exact ((fault_terminal_state_enforced_at_handler resolvedContext "f2" "bob"
      resolvedFault 100 (by decide)).2 (by decide)).2

/-- Counterexample for C7: two `GetDeviceStats` calls 2 seconds apart with
no mutation between them, against a registry whose (coherent) snapshot
was cached at time 100: the first call at 159 serves the cache, the
second at 161 falls outside the 60-second window of the cached timestamp
and recomputes — the post-call states differ (the cache timestamp moves
to 161), even though the two returned snapshots are field-equal; so the
second call is a recomputation producing a fresh (not bit-identical)
snapshot object. -/
theorem stats_window_edge_recompute_counterexample :
    161 - 159 < 60 ∧
    (GetDeviceStats (GetDeviceStats staleEdgeContext 159).2 161).1 =
      (GetDeviceStats staleEdgeContext 159).1 ∧
    (GetDeviceStats (GetDeviceStats staleEdgeContext 159).2 161).2 ≠
      (GetDeviceStats staleEdgeContext 159).2 := by
  decide

/-- C7 (amended): when the first `GetDeviceStats` call finds the cache
stale (in particular right after an invalidation) and recomputes, a
second call within 60 seconds with no mutation in between performs no
recomputation: it returns the identical cached snapshot and leaves the
state exactly as the first call left it. -/
theorem stats_fresh_after_recompute (c : Context) (t1 t2 : Nat)
    (h1 : 60 ≤ t1 - c.statsCacheTime) (h2 : t1 ≤ t2) (h3 : t2 - t1 < 60) :
    GetDeviceStats (GetDeviceStats c t1).2 t2 = GetDeviceStats c t1 := by
  have hfirst : GetDeviceStats c t1 =
      ((updateStatsCache c t1).statsCache, updateStatsCache c t1) := by
    rw [GetDeviceStats, if_neg (by omega)]
  rw [hfirst]
  have hts : (updateStatsCache c t1).statsCacheTime = t1 := rfl
  rw [GetDeviceStats, hts, if_pos (by omega)]

/-- Witness for the amended C7: a recomputation at time 100 on the fresh
registry followed by a second read at time 150. -/
theorem stats_fresh_after_recompute_witness :
    GetDeviceStats (GetDeviceStats emptyContext 100).2 150 =
      GetDeviceStats emptyContext 100 :=
  stats_fresh_after_recompute emptyContext 100 150 (by decide) (by decide)
    (by decide)

/-- Counterexample for C8: `AddDevice` performs no identifier validation —
a device whose ID is the empty string IS stored, under the empty key,
contradicting the claim that it fails or no-ops. -/
theorem empty_id_device_stored_counterexample :
    GetDevice (AddDevice emptyContext emptyIDDevice) "" ≠ none ∧
    GetDevice (AddDevice emptyContext emptyIDDevice) "" = some emptyIDDevice := by
  decide

/-- C8 (amended): `AddDevice` performs no validation at all: for every
device — the empty identifier included — it inserts or replaces the entry
under `device.id`, invalidates the stats cache, and leaves every other
key untouched. -/
theorem upsert_no_id_validation (c : Context) (d : Device) :
    GetDevice (AddDevice c d) d.id = some d ∧
    (AddDevice c d).statsCacheTime = 0 ∧
    (∀ k, k ≠ d.id → GetDevice (AddDevice c d) k = GetDevice c k) := by
  refine ⟨?_, rfl, ?_⟩
  · simp [GetDevice, AddDevice, invalidateStatsCache, mapGet_mapSet_self]
  · intro k hk
    simp [GetDevice, AddDevice, invalidateStatsCache,
      mapGet_mapSet_ne _ _ _ _ hk]

/-- Witness for the amended C8: inserting the empty-ID device changes
nothing under any other key. -/
theorem upsert_no_id_validation_witness :
    GetDevice (AddDevice emptyContext emptyIDDevice) "other" =
      GetDevice emptyContext "other" :=
  (upsert_no_id_validation emptyContext emptyIDDevice).2.2 "other" (by decide)

end CPlane
